import Mathlib

/-!
Shallow embedding of the BananaPhone SysID resolver (`bananaphone.go`).

The Go source under verification is the resolver orchestrator: `PhoneMode`,
`BananaPhone`, `NewBananaPhoneNamed`, `GetFuncPtr`, `GetSysID`, `GetSysIDOrd`,
`getSysID`, `getSysIDFromNeighbor`, `MayBeHookedError` and `HookCheck`.
External collaborators (the `pe` package, `InMemLoads`, `GetNtdllStart`,
`rvaToOffset`, `pe.Open`, `pe.NewFileFromMemory`) are abstracted as an
environment record; `sysIDFromRawBytes` is repo code outside the provided
sources and is modelled from the spec.

Machine integers are modelled as `Nat` with explicit `% 2 ^ w` where the Go
code performs wrapping arithmetic (`uint16` subtraction in the neighbour
search, `uint64` addition in `GetFuncPtr`, `uintptr` decrement wrap-around at
the start of the backward scan).  Go slice indexing and slicing panic when out
of range; this is made observable through the `Outcome.panics` constructor and
the bounds-checked `goSlice?` / explicit length tests in the scan loops.
-/

/-- Errors produced by the resolver.  `mayBeHooked` is `MayBeHookedError`
(carrying `Foundbytes`); `message` covers `errors.New` / `fmt.Errorf` values. -/
inductive GoError where
  | mayBeHooked (foundbytes : List Nat)
  | message (msg : String)
deriving DecidableEq

/-- Result of a Go function returning `(T, error)`, with a third constructor
for a runtime panic (out-of-range index or slice, nil dereference). -/
inductive Outcome (α : Type) where
  | ok (val : α)
  | err (e : GoError)
  | panics
deriving DecidableEq

/-- One entry of the PE export directory (`pe.Export`): name (may be empty),
ordinal, relative virtual address. -/
structure ExportEntry where
  name : String
  ordinal : Nat
  virtualAddress : Nat
deriving DecidableEq

/-- The parsed PE image (`*pe.File`) as the resolver observes it: the results
of `Exports()` and `Bytes()`, and the RVA-to-offset translation.
`rvaOffset` models `rvaToOffset` (repo code outside the provided sources;
per the spec it is the section-table translation for disk images and the
identity for memory images); no claim depends on its internals, so it is kept
abstract as a function of the parsed file. -/
structure PEFile where
  exportsResult : Except GoError (List ExportEntry)
  bytesResult : Except GoError (List Nat)
  rvaOffset : Nat → Nat

/-- The `BananaPhone` struct: parsed image (nil-able `*pe.File`), the two mode
flags, and the recorded in-memory base `memloc`. -/
structure BananaPhone where
  banana : Option PEFile
  isAuto : Bool
  isHalosGate : Bool
  memloc : Nat

/-- One value of the `InMemLoads()` map: base address and size of a loaded
module, together with the result of `pe.NewFileFromMemory` on that mapping
(first component the parsed file or none, second the error or none). -/
structure LoadInfo where
  baseAddr : Nat
  size : Nat
  parse : Option PEFile × Option GoError

/-- The ambient process and filesystem, abstracting the external collaborators:
`inMemLoads` is the result of `InMemLoads()` (map modelled as an association
list in iteration order), `peOpen` is `pe.Open` on a path, and `ntdllStart`
is the `(start, size)` pair returned by `GetNtdllStart()`. -/
structure Env where
  inMemLoads : Except GoError (List (String × LoadInfo))
  peOpen : String → Option PEFile × Option GoError
  ntdllStart : Nat × Nat

/-- The `PhoneMode` constants, an `iota` enumeration of the Go `int` type. -/
def MemoryBananaPhoneMode : Int := 0

/-- Disk mode constant (`iota` value 1). -/
def DiskBananaPhoneMode : Int := 1

/-- Auto mode constant (`iota` value 2). -/
def AutoBananaPhoneMode : Int := 2

/-- Halo's Gate mode constant (`iota` value 3). -/
def HalosGateBananaPhoneMode : Int := 3

/-- `HookCheck`: the canonical syscall-stub prologue
`mov r10, rcx; mov eax, <imm32>` = `4C 8B D1 B8`. -/
def HookCheck : List Nat := [0x4c, 0x8b, 0xd1, 0xb8]

/-- The fixed path used by the Auto-mode disk reopen in `GetSysID` and
`GetSysIDOrd`. -/
def ntdllDiskPath : String := "C:\\Windows\\system32\\ntdll.dll"

/-- Byte read `b[i]` after an in-bounds check has been established by the
caller; the default is never observed on in-range indices. -/
def byteAt (b : List Nat) (i : Nat) : Nat := b.getD i 0

/-- Go slice expression `b[lo:hi]`: `some` of the sub-slice when
`lo ≤ hi ≤ len(b)`, `none` (a panic) otherwise. -/
def goSlice? (b : List Nat) (lo hi : Nat) : Option (List Nat) :=
  if lo ≤ hi ∧ hi ≤ b.length then some ((b.drop lo).take (hi - lo)) else none

/-- `strings.ToLower` (per-character lowering, adequate for the ASCII export
and module names the resolver compares), written over the character list so
that it evaluates by kernel reduction. -/
def goToLower (s : String) : String := String.mk (s.data.map Char.toLower)

/-- `filepath.Base` on Windows: the last non-empty path component, `"."` when
there is none.  External library function, modelled to the extent the module
matching in `NewBananaPhoneNamed` exercises it. -/
def filepathBase (s : String) : String :=
  match (s.split (fun c => c = '\\' ∨ c = '/')).reverse.find? (fun p => p ≠ "") with
  | some p => p
  | none => "."

/-- Modelled from the spec: `sysIDFromRawBytes` (SysID Extractor, spec 4.4) is
repo code outside the provided sources.  If the leading four bytes equal the
prologue `HookCheck`, return the 16-bit little-endian value of bytes 4 and 5
(`(hi << 8) | lo`; bytes are uint8, hence the `% 256`); otherwise fail with
`MayBeHookedError` carrying exactly the observed bytes. -/
def sysIDFromRawBytes (b : List Nat) : Except GoError Nat :=
  if b.take 4 = HookCheck then
    .ok (byteAt b 4 % 256 + 256 * (byteAt b 5 % 256))
  else
    .error (.mayBeHooked b)

/-- `errors.As(e, &err)` with `err : MayBeHookedError`: true exactly when the
dynamic type of `e` is `MayBeHookedError`. -/
def errorsAsMayBeHooked : GoError → Bool
  | .mayBeHooked _ => true
  | _ => false

/-- `errors.Is(e, &err)` with `err : MayBeHookedError`, as written in
`GetSysIDOrd`.  The target has dynamic type `*MayBeHookedError` while every
error this package produces is a `MayBeHookedError` value or a plain message
error, so the interface comparison `e == target` is false for different
dynamic types; `MayBeHookedError` defines neither an `Is` nor an `Unwrap`
method, so `errors.Is` returns false for every error reachable here. -/
def errorsIsMayBeHookedPtr (_ : GoError) : Bool := false

/-- The export-matching predicate of `getSysID` / `getSysIDFromNeighbor`
(line 171): `(useOrd && exp.Ordinal == ord) || exp.Name == funcname`. -/
def exportMatch (useOrd : Bool) (ord : Nat) (funcname : String)
    (exp : ExportEntry) : Bool :=
  (useOrd && exp.ordinal == ord) || exp.name == funcname

/-- Wrapping `uint16` subtraction `a - d` (the forward-pass formula
`sysId - uint16(distanceNeighbor)`). -/
def sub16 (a d : Nat) : Nat := (a % 65536 + 65536 - d % 65536) % 65536

/-- Wrapping `uint16` computation `a + d - 1` (the backward-pass formula
`sysId + uint16(distanceNeighbor) - 1`). -/
def addPred16 (a d : Nat) : Nat := (a % 65536 + d % 65536 + 65535) % 65536

/-- `uintptr` decrement with wrap-around, used for the backward scan's
starting index `uintptr(offset) - 1`. -/
def wrapSub1 (n : Nat) : Nat := (n + (2 ^ 64 - 1)) % 2 ^ 64

/-- Outcome of one scan direction of the Halo's Gate search. -/
inductive ScanOut where
  | found (sysid : Nat)
  | exhausted
  | panics
deriving DecidableEq

/-- The forward pass of `getSysIDFromNeighbor` (lines 211-220), decremented
fuel form: `fuel` is `bound - i`, so `fuel = 0` is exactly the exit condition
`i < start+size` failing.  At each step the code reads `bBytes[i]` and, behind
short-circuit `&&`, `bBytes[i+1]` and `bBytes[i+2]`; on an epilogue match it
increments the distance counter and slices `bBytes[i+14 : i+14+8]`.
`sysIDFromRawBytes` fails only with `MayBeHookedError`, so the source's
`!errors.As(e, &err)` is success of the extraction. -/
def forwardScanAux (b : List Nat) : Nat → Nat → Nat → ScanOut
  | 0, _, _ => .exhausted
  | fuel + 1, i, d =>
    if b.length ≤ i then .panics
    else if byteAt b i = 0x0f then
      if b.length ≤ i + 1 then .panics
      else if byteAt b (i + 1) = 0x05 then
        if b.length ≤ i + 2 then .panics
        else if byteAt b (i + 2) = 0xc3 then
          match goSlice? b (i + 14) (i + 14 + 8) with
          | none => .panics
          | some w =>
            match sysIDFromRawBytes w with
            | .ok s => .found (sub16 s (d + 1))
            | .error _ => forwardScanAux b fuel (i + 1) (d + 1)
        else forwardScanAux b fuel (i + 1) d
      else forwardScanAux b fuel (i + 1) d
    else forwardScanAux b fuel (i + 1) d

/-- The forward pass from index `i` with loop bound `bound = start + size` and
distance counter `d`. -/
def forwardScan (b : List Nat) (bound i d : Nat) : ScanOut :=
  forwardScanAux b (bound - i) i d

/-- The backward pass of `getSysIDFromNeighbor` (lines 224-233): scan from `i`
down while `i > 0`, the same epilogue test and extraction, returning
`sysId + uint16(distanceNeighbor) - 1` on success. -/
def backwardScan (b : List Nat) : Nat → Nat → ScanOut
  | 0, _ => .exhausted
  | j + 1, d =>
    if b.length ≤ j + 1 then .panics
    else if byteAt b (j + 1) = 0x0f then
      if b.length ≤ j + 2 then .panics
      else if byteAt b (j + 2) = 0x05 then
        if b.length ≤ j + 3 then .panics
        else if byteAt b (j + 3) = 0xc3 then
          match goSlice? b (j + 1 + 14) (j + 1 + 14 + 8) with
          | none => .panics
          | some w =>
            match sysIDFromRawBytes w with
            | .ok s => .found (addPred16 s (d + 1))
            | .error _ => backwardScan b j (d + 1)
        else backwardScan b j d
      else backwardScan b j d
    else backwardScan b j d

/-- The export loop of `getSysID` (lines 170-182): on the first matching
export, translate the RVA, fetch the image bytes, slice the ten leading stub
bytes (a panic when `offset+10` exceeds the image) and extract; a non-matching
export falls through to the next; an empty remainder yields the
`Could not find syscall ID` error (line 183). -/
def getSysIDLoop (banana : PEFile) (funcname : String) (ord : Nat)
    (useOrd : Bool) : List ExportEntry → Outcome Nat
  | [] => .err (.message "Could not find syscall ID")
  | exp :: rest =>
    if exportMatch useOrd ord funcname exp then
      match banana.bytesResult with
      | .error e => .err e
      | .ok b =>
        match goSlice? b (banana.rvaOffset exp.virtualAddress)
            (banana.rvaOffset exp.virtualAddress + 10) with
        | none => .panics
        | some buff =>
          match sysIDFromRawBytes buff with
          | .ok s => .ok s
          | .error e => .err e
    else getSysIDLoop banana funcname ord useOrd rest

/-- `getSysID` (lines 164-184).  A `none` image is a nil `*pe.File`; calling
`Exports()` on it dereferences nil and panics. -/
def BananaPhone.getSysID (bp : BananaPhone) (funcname : String) (ord : Nat)
    (useOrd : Bool) : Outcome Nat :=
  match bp.banana with
  | none => .panics
  | some banana =>
    match banana.exportsResult with
    | .error e => .err e
    | .ok ex => getSysIDLoop banana funcname ord useOrd ex

/-- The Halo's Gate neighbourhood search proper (lines 208-233): the forward
scan with distance counter starting at 0, then - if it exhausts - the
backward scan from `uintptr(offset) - 1` with the counter re-initialised
to 1.  `some` is a `return` from the Go function; `none` is both directions
exhausting. -/
def scanNeighborhood (bBytes : List Nat) (env : Env) (offset : Nat) :
    Option (Outcome Nat) :=
  match forwardScan bBytes (env.ntdllStart.1 + env.ntdllStart.2) offset 0 with
  | .found s => some (.ok s)
  | .panics => some .panics
  | .exhausted =>
    match backwardScan bBytes (wrapSub1 offset) 1 with
    | .found s => some (.ok s)
    | .panics => some .panics
    | .exhausted => none

/-- Extraction at the matched stub (lines 204-236): on success return the
SysID (the source's `else` branch `return sysId, e` with nil `e`); on
`MayBeHookedError` (`errors.As`) search the neighbourhood. -/
def extractOrScan (bBytes : List Nat) (env : Env) (offset : Nat)
    (buff : List Nat) : Option (Outcome Nat) :=
  match sysIDFromRawBytes buff with
  | .ok s => some (.ok s)
  | .error e =>
    match e with
    | .mayBeHooked _ => scanNeighborhood bBytes env offset
    | _ => some (.err e)

/-- The body of one matched-export iteration of `getSysIDFromNeighbor`
(lines 197-236): translate the RVA, fetch the image bytes, slice the ten
leading stub bytes (a panic when `offset+10` exceeds the image) and hand
over to extraction. -/
def neighborProcess (banana : PEFile) (env : Env) (exp : ExportEntry) :
    Option (Outcome Nat) :=
  match banana.bytesResult with
  | .error e => some (.err e)
  | .ok bBytes =>
    match goSlice? bBytes (banana.rvaOffset exp.virtualAddress)
        (banana.rvaOffset exp.virtualAddress + 10) with
    | none => some .panics
    | some buff =>
      extractOrScan bBytes env (banana.rvaOffset exp.virtualAddress) buff

/-- The export loop of `getSysIDFromNeighbor` (lines 194-237): the first
matching export is processed by `neighborProcess`; a non-matching export, or
a matched one whose scans both exhaust, falls through to the next, ending in
the generic `Could not find syscall ID` error (line 239). -/
def neighborLoop (banana : PEFile) (env : Env) (funcname : String) (ord : Nat)
    (useOrd : Bool) : List ExportEntry → Outcome Nat
  | [] => .err (.message "Could not find syscall ID")
  | exp :: rest =>
    if exportMatch useOrd ord funcname exp then
      match neighborProcess banana env exp with
      | some r => r
      | none => neighborLoop banana env funcname ord useOrd rest
    else neighborLoop banana env funcname ord useOrd rest

/-- `getSysIDFromNeighbor` (lines 187-240). -/
def BananaPhone.getSysIDFromNeighbor (bp : BananaPhone) (env : Env)
    (funcname : String) (ord : Nat) (useOrd : Bool) : Outcome Nat :=
  match bp.banana with
  | none => .panics
  | some banana =>
    match banana.exportsResult with
    | .error e => .err e
    | .ok ex => neighborLoop banana env funcname ord useOrd ex

/-- `GetSysID` (lines 128-144): name-based resolution; on `MayBeHookedError`
(`errors.As`) Auto mode reopens NTDLL from disk — a failed open is returned
as-is — and retries once on the reopened image; HalosGate mode runs the
neighbour search; otherwise the error is returned unchanged. -/
def BananaPhone.GetSysID (bp : BananaPhone) (env : Env) (funcname : String) :
    Outcome Nat :=
  match bp.getSysID funcname 0 false with
  | .ok r => .ok r
  | .panics => .panics
  | .err e =>
    if bp.isAuto && errorsAsMayBeHooked e then
      match env.peOpen ntdllDiskPath with
      | (_, some e2) => .err e2
      | (p, none) => BananaPhone.getSysID { bp with banana := p } funcname 0 false
    else if bp.isHalosGate && errorsAsMayBeHooked e then
      bp.getSysIDFromNeighbor env funcname 0 false
    else .err e

/-- `GetSysIDOrd` (lines 147-161): ordinal resolution; the recovery test is
`errors.Is(e, &err)` (see `errorsIsMayBeHookedPtr`) and there is no HalosGate
branch. -/
def BananaPhone.GetSysIDOrd (bp : BananaPhone) (env : Env) (ordinal : Nat) :
    Outcome Nat :=
  match bp.getSysID "" ordinal true with
  | .ok r => .ok r
  | .panics => .panics
  | .err e =>
    if bp.isAuto && errorsIsMayBeHookedPtr e then
      match env.peOpen ntdllDiskPath with
      | (_, some e2) => .err e2
      | (p, none) => BananaPhone.getSysID { bp with banana := p } "" ordinal true
    else .err e

/-- The export loop of `GetFuncPtr` (lines 103-108): case-insensitive name
comparison, returning `uint64(b.memloc) + uint64(ex.VirtualAddress)`. -/
def funcPtrLoop (memloc : Nat) (funcname : String) :
    List ExportEntry → Outcome Nat
  | [] => .err (.message ("could not find function: " ++ funcname))
  | ex :: rest =>
    if goToLower funcname = goToLower ex.name then
      .ok ((memloc + ex.virtualAddress) % 2 ^ 64)
    else funcPtrLoop memloc funcname rest

/-- `GetFuncPtr` (lines 98-109). -/
def BananaPhone.GetFuncPtr (bp : BananaPhone) (funcname : String) :
    Outcome Nat :=
  match bp.banana with
  | none => .panics
  | some banana =>
    match banana.exportsResult with
    | .error e => .err e
    | .ok ex => funcPtrLoop bp.memloc funcname ex

/-- The module-matching predicate of the `NewBananaPhoneNamed` loop
(line 77): full path equals `diskpath` case-insensitively, or `name` equals
the path's base name case-insensitively. -/
def loadMatch (name diskpath : String) (entry : String × LoadInfo) : Bool :=
  goToLower entry.1 == goToLower diskpath ||
    goToLower name == goToLower (filepathBase entry.1)

/-- `NewBananaPhoneNamed` (lines 61-95), returning the Go pair
`(*BananaPhone, error)`.  The Memory/Auto/HalosGate cases fall through to one
shared branch; the loop takes the first matching loaded module, records its
base address in `memloc` and parses the mapping; Disk mode opens `diskpath`;
any other mode value skips the switch entirely, leaving `p` and `e` nil. -/
def NewBananaPhoneNamed (env : Env) (t : Int) (name diskpath : String) :
    Option BananaPhone × Option GoError :=
  if t = HalosGateBananaPhoneMode ∨ t = AutoBananaPhoneMode ∨
      t = MemoryBananaPhoneMode then
    match env.inMemLoads with
    | .error err => (none, some err)
    | .ok loads =>
      match loads.find? (loadMatch name diskpath) with
      | none =>
        (none, some (.message ("module not found, bad times (" ++ diskpath ++
          " " ++ filepathBase diskpath ++ ")")))
      | some entry =>
        (some { banana := entry.2.parse.1,
                isAuto := t == AutoBananaPhoneMode,
                isHalosGate := t == HalosGateBananaPhoneMode,
                memloc := entry.2.baseAddr },
         entry.2.parse.2)
  else if t = DiskBananaPhoneMode then
    (some { banana := (env.peOpen diskpath).1,
            isAuto := false, isHalosGate := false, memloc := 0 },
     (env.peOpen diskpath).2)
  else
    (some { banana := none, isAuto := false, isHalosGate := false,
            memloc := 0 },
     none)

/-!
Concrete synthetic images used to settle the claims.  Offsets are made
concrete through an identity `rvaOffset` (the memory-image translation).
-/

/-- A 40-byte synthetic image: a hooked stub at offset 30 (16 overwritten
bytes would cover it; here ten `0x90`s), an epilogue `0F 05 C3` at offset 10,
and 14 bytes past it (offset 24) an intact prologue with SysID `0x0042`.
The forward region (offsets 30-39) holds no epilogue. -/
def c1Bytes : List Nat :=
  [0, 0, 0, 0, 0, 0, 0, 0, 0, 0, 15, 5, 195, 0, 0, 0, 0, 0, 0, 0, 0, 0, 0, 0,
   76, 139, 209, 184, 66, 0, 144, 144, 144, 144, 144, 144, 144, 144, 144, 144]

/-- Parsed view of `c1Bytes` with a single export resolving to offset 30. -/
def c1Banana : PEFile :=
  { exportsResult := .ok [⟨"NtTest", 5, 30⟩], bytesResult := .ok c1Bytes,
    rvaOffset := fun rva => rva }

/-- Environment for the `c1` image: `GetNtdllStart` bounds the forward scan at
the image end. -/
def c1Env : Env :=
  { inMemLoads := .ok [], peOpen := fun _ => (none, some (.message "x")),
    ntdllStart := (0, 40) }

/-- A Halo's Gate resolver holding the `c1` image. -/
def c1Phone : BananaPhone :=
  { banana := some c1Banana, isAuto := false, isHalosGate := true,
    memloc := 4096 }

/-- A 20-byte image with no epilogue anywhere: both scan directions exhaust
in bounds. -/
def c2Bytes : List Nat := List.replicate 20 144

/-- Parsed view of `c2Bytes` with a single export resolving to offset 10. -/
def c2Banana : PEFile :=
  { exportsResult := .ok [⟨"NtTest", 5, 10⟩], bytesResult := .ok c2Bytes,
    rvaOffset := fun rva => rva }

/-- Environment for the `c2` image: the forward bound coincides with the
image end, so the forward pass exits its loop without an out-of-range read. -/
def c2Env : Env :=
  { inMemLoads := .ok [], peOpen := fun _ => (none, some (.message "x")),
    ntdllStart := (0, 20) }

/-- A Halo's Gate resolver holding the `c2` image. -/
def c2Phone : BananaPhone :=
  { banana := some c2Banana, isAuto := false, isHalosGate := true,
    memloc := 4096 }

/-- A well-formed ten-byte stub with SysID `0x0037`. -/
def c3Bytes : List Nat := [76, 139, 209, 184, 55, 0, 0, 0, 15, 5]

/-- An image whose only export is ordinal-only: empty name, ordinal 137. -/
def c3Banana : PEFile :=
  { exportsResult := .ok [⟨"", 137, 0⟩], bytesResult := .ok c3Bytes,
    rvaOffset := fun rva => rva }

/-- A memory-mode resolver holding the `c3` image. -/
def c3Phone : BananaPhone :=
  { banana := some c3Banana, isAuto := false, isHalosGate := false,
    memloc := 0 }

/-- A hooked in-memory stub: ten `0x90` bytes. -/
def c4MemBytes : List Nat := List.replicate 10 144

/-- The clean on-disk copy of the same stub, carrying SysID `0x0012`. -/
def c4DiskBytes : List Nat := [76, 139, 209, 184, 18, 0, 0, 0, 15, 5]

/-- In-memory image for `c4`: the export's stub is hooked. -/
def c4Banana : PEFile :=
  { exportsResult := .ok [⟨"NtAllocate", 7, 0⟩], bytesResult := .ok c4MemBytes,
    rvaOffset := fun rva => rva }

/-- On-disk image for `c4`: the same export with a clean stub. -/
def c4Disk : PEFile :=
  { exportsResult := .ok [⟨"NtAllocate", 7, 0⟩], bytesResult := .ok c4DiskBytes,
    rvaOffset := fun rva => rva }

/-- Environment for `c4`: `pe.Open` succeeds and yields the clean disk
image. -/
def c4Env : Env :=
  { inMemLoads := .ok [], peOpen := fun _ => (some c4Disk, none),
    ntdllStart := (0, 10) }

/-- An Auto-mode resolver holding the hooked `c4` memory image. -/
def c4Phone : BananaPhone :=
  { banana := some c4Banana, isAuto := true, isHalosGate := false,
    memloc := 4096 }

/-- A HalosGate-mode resolver holding the hooked `c4` memory image. -/
def c4HGPhone : BananaPhone :=
  { banana := some c4Banana, isAuto := false, isHalosGate := true,
    memloc := 4096 }

/-- A 20-byte image with no epilogue, paired below with an `ntdllStart` whose
`start + size` exceeds the image length (in a real process `start` is the
absolute NTDLL base, far beyond any offset into the byte slice). -/
def c5Bytes : List Nat := List.replicate 20 144

/-- Parsed view of `c5Bytes` with a single export resolving to offset 5. -/
def c5Banana : PEFile :=
  { exportsResult := .ok [⟨"NtTest", 5, 5⟩], bytesResult := .ok c5Bytes,
    rvaOffset := fun rva => rva }

/-- Environment for `c5`: `GetNtdllStart` reports `(11, 19)`, so the forward
loop bound `start + size = 30` lies past the 20-byte image. -/
def c5Env : Env :=
  { inMemLoads := .ok [], peOpen := fun _ => (none, some (.message "x")),
    ntdllStart := (11, 19) }

/-- A Halo's Gate resolver holding the `c5` image. -/
def c5Phone : BananaPhone :=
  { banana := some c5Banana, isAuto := false, isHalosGate := true,
    memloc := 4096 }

/-- In-memory image for `c7`: one export whose stub is hooked. -/
def c7Banana : PEFile :=
  { exportsResult := .ok [⟨"NtX", 1, 0⟩],
    bytesResult := .ok (List.replicate 10 144), rvaOffset := fun rva => rva }

/-- Environment for `c7`: the disk reopen itself fails. -/
def c7Env : Env :=
  { inMemLoads := .ok [],
    peOpen := fun _ => (none, some (.message "open failed")),
    ntdllStart := (0, 0) }

/-- An Auto-mode resolver holding the hooked `c7` image. -/
def c7Phone : BananaPhone :=
  { banana := some c7Banana, isAuto := true, isHalosGate := false,
    memloc := 0 }

/-- Image for `c8`: a single export named `NtReadFile` at RVA 77. -/
def c8Banana : PEFile :=
  { exportsResult := .ok [⟨"NtReadFile", 1, 77⟩], bytesResult := .ok [],
    rvaOffset := fun rva => rva }

/-- A resolver holding the `c8` image with a non-zero base. -/
def c8Phone : BananaPhone :=
  { banana := some c8Banana, isAuto := false, isHalosGate := false,
    memloc := 4096 }

/-- Image for `c9`: one export named `NtCreateFile` at RVA 77. -/
def c9Banana : PEFile :=
  { exportsResult := .ok [⟨"NtCreateFile", 2, 77⟩], bytesResult := .ok [],
    rvaOffset := fun rva => rva }

/-- Loader list for `c9`: NTDLL mapped at base 4096. -/
def c9Loads : List (String × LoadInfo) :=
  [("C:\\Windows\\system32\\ntdll.dll",
    { baseAddr := 4096, size := 40, parse := (some c9Banana, none) })]

/-- Environment for `c9`. -/
def c9Env : Env :=
  { inMemLoads := .ok c9Loads, peOpen := fun _ => (none, some (.message "x")),
    ntdllStart := (0, 0) }

/-- The resolver that memory-mode construction over `c9Env` produces. -/
def c9Phone : BananaPhone :=
  { banana := some c9Banana, isAuto := false, isHalosGate := false,
    memloc := 4096 }

/-- A minimal environment for exercising construction with an unknown mode. -/
def c10Env : Env :=
  { inMemLoads := .ok [], peOpen := fun _ => (none, some (.message "x")),
    ntdllStart := (0, 0) }

/-!
Helper lemmas shared by the claim theorems.
-/

/-- When no export in the list satisfies the match predicate, the `getSysID`
export loop falls through to the generic lookup failure. -/
theorem getSysIDLoop_no_match (banana : PEFile) (funcname : String)
    (L : List ExportEntry)
    (hall : ∀ ex ∈ L, exportMatch false 0 funcname ex = false) :
    getSysIDLoop banana funcname 0 false L
      = .err (.message "Could not find syscall ID") := by
  induction L with
  | nil => rfl
  | cons ex rest ih =>
    have hx := hall ex (List.mem_cons_self ex rest)
    rw [getSysIDLoop, hx]
    simp only [Bool.false_eq_true, if_false]
    exact ih (fun x hx2 => hall x (List.mem_cons_of_mem _ hx2))

/-!
The claim theorems.
-/

/-- C1: the claim states that for a synthetic image with intact neighbouring
stubs and the 14-byte epilogue-to-prologue spacing, Halo's Gate recovers the
SysID the overwritten stub would have had, with the backward pass returning
`neighbour_sysid + distance - 1` such that a backward first-occurrence
neighbour carrying SysID `0x0042` one stub away yields `0x0042`.  On the
`c1` image the forward pass exhausts and the backward pass finds its first
epilogue at offset 10, whose `+14` extraction succeeds with neighbour SysID
`0x0042`; the code has incremented the counter from its initial 1 to 2 before
using it, so it returns `0x0042 + 2 - 1 = 0x0043`, one more than the claim's
`0x0042`. -/
theorem getSysIDFromNeighbor_backward_off_by_one :
    c1Phone.getSysIDFromNeighbor c1Env "NtTest" 0 false = .ok 0x43 := by decide

/-- C2 counterexample: the claim states that when both scan directions
exhaust, `getSysIDFromNeighbor` returns the original `MayBeHookedError`
carrying the ten observed bytes.  On the `c2` image (a matching export whose
stub is hooked and an image containing no epilogue at all) both scans exhaust
and the function returns the generic `Could not find syscall ID` error, and
no `MayBeHookedError` at all. -/
theorem getSysIDFromNeighbor_exhausted_counterexample :
    c2Phone.getSysIDFromNeighbor c2Env "NtTest" 0 false
      = .err (.message "Could not find syscall ID") ∧
    ∀ bs : List Nat, c2Phone.getSysIDFromNeighbor c2Env "NtTest" 0 false
      ≠ .err (.mayBeHooked bs) := by
  refine ⟨by decide, fun bs h => ?_⟩
  rw [show c2Phone.getSysIDFromNeighbor c2Env "NtTest" 0 false
      = .err (.message "Could not find syscall ID") from by decide] at h
  simp at h

/-- C2 amended: when the matched export's extraction signals
`MayBeHookedError` and both the forward and the backward scan exhaust,
`getSysIDFromNeighbor` falls out of its export loop and returns the generic
`Could not find syscall ID` error (the same value as a failed export lookup),
not the original hooked error. -/
theorem getSysIDFromNeighbor_exhausted_generic_error
    (bp : BananaPhone) (env : Env) (banana : PEFile) (funcname : String)
    (exp : ExportEntry) (bBytes buff : List Nat)
    (hban : bp.banana = some banana)
    (hex : banana.exportsResult = .ok [exp])
    (hmatch : exportMatch false 0 funcname exp = true)
    (hb : banana.bytesResult = .ok bBytes)
    (hbuff : goSlice? bBytes (banana.rvaOffset exp.virtualAddress)
      (banana.rvaOffset exp.virtualAddress + 10) = some buff)
    (hhook : sysIDFromRawBytes buff = .error (.mayBeHooked buff))
    (hfwd : forwardScan bBytes (env.ntdllStart.1 + env.ntdllStart.2)
      (banana.rvaOffset exp.virtualAddress) 0 = .exhausted)
    (hbwd : backwardScan bBytes
      (wrapSub1 (banana.rvaOffset exp.virtualAddress)) 1 = .exhausted) :
    bp.getSysIDFromNeighbor env funcname 0 false
      = .err (.message "Could not find syscall ID") := by
  have hscan : scanNeighborhood bBytes env (banana.rvaOffset exp.virtualAddress)
      = none := by
    rw [scanNeighborhood, hfwd, hbwd]
  have hstep : neighborProcess banana env exp = none := by
    rw [neighborProcess, hb]
    simp only []
    simp only [hbuff]
    rw [extractOrScan, hhook]
    simp only []
    exact hscan
  rw [BananaPhone.getSysIDFromNeighbor, hban]
  simp only [hex]
  rw [neighborLoop, hmatch, if_pos rfl, hstep]
  exact neighborLoop.eq_1 banana env funcname 0 false

/-- C2 witness: the amended theorem applied to the `c2` image. -/
theorem getSysIDFromNeighbor_exhausted_generic_error_witness :
    c2Phone.getSysIDFromNeighbor c2Env "NtTest" 0 false
      = .err (.message "Could not find syscall ID") :=
  getSysIDFromNeighbor_exhausted_generic_error c2Phone c2Env c2Banana "NtTest"
    ⟨"NtTest", 5, 10⟩ c2Bytes (List.replicate 10 144) rfl rfl (by decide) rfl
    (by decide) rfl (by decide) (by decide)

/-- C3: the claim states that an ordinal-only export (empty name, ordinal
137) is found by `getSysID` with `useOrd = true`, and is *not* matched by
`getSysID` with `useOrd = false` and an empty funcname.  On the `c3` image
the ordinal lookup succeeds as claimed, but the name-based lookup with the
empty name *also* matches the ordinal-only export through the
`exp.Name == funcname` disjunct and returns its SysID instead of failing. -/
theorem getSysID_empty_name_matches_ordinal_only_export :
    c3Phone.getSysID "" 137 true = .ok 0x37 ∧
    c3Phone.getSysID "" 0 false = .ok 0x37 := by decide

/-- C4: the claim states that when `GetSysIDOrd`'s extraction fails with
`MayBeHookedError`, Auto mode reopens the image from disk and retries and
HalosGate mode runs the neighbour search.  On the `c4` images the Auto-mode
resolver propagates the hooked error although `pe.Open` would have produced
a clean disk image (its `errors.Is` test never matches a `MayBeHookedError`
value), the HalosGate-mode resolver propagates it as well (`GetSysIDOrd` has
no HalosGate branch), while the name-based `GetSysID` on the same resolver
does recover `0x0012` from disk via `errors.As`. -/
theorem GetSysIDOrd_no_hooked_recovery :
    c4Phone.GetSysIDOrd c4Env 7 = .err (.mayBeHooked (List.replicate 10 144)) ∧
    c4HGPhone.GetSysIDOrd c4Env 7
      = .err (.mayBeHooked (List.replicate 10 144)) ∧
    c4Phone.GetSysID c4Env "NtAllocate" = .ok 0x12 := by decide

/-- C5: the claim states that the forward pass never reads past the end of
the image byte slice.  On the `c5` image the forward loop's bound is
`GetNtdllStart`'s `start + size = 30`, which exceeds the 20-byte slice, so
after scanning offsets 5..19 without a match the loop reads `bBytes[20]`,
out of range: the scan, and the whole neighbour search, panic. -/
theorem forward_scan_reads_past_image_end :
    forwardScan c5Bytes (11 + 19) 5 0 = .panics ∧
    c5Phone.getSysIDFromNeighbor c5Env "NtTest" 0 false = .panics := by decide

/-- C6: for every 10-byte buffer of byte values, if the first four bytes
equal the prologue `4C 8B D1 B8` the extractor returns `(hi << 8) | lo` of
the fifth and sixth bytes with no error, and if they differ it fails with a
`MayBeHookedError` carrying exactly the observed buffer. -/
theorem sysIDFromRawBytes_roundtrip (b : List Nat) (hlen : b.length = 10)
    (hbytes : ∀ x ∈ b, x < 256) :
    (b.take 4 = HookCheck →
      sysIDFromRawBytes b = .ok (b.getD 4 0 + 256 * b.getD 5 0)) ∧
    (b.take 4 ≠ HookCheck →
      sysIDFromRawBytes b = .error (.mayBeHooked b)) := by
  constructor
  · intro h
    have h4 : b.getD 4 0 < 256 := by
      have hl : 4 < b.length := by omega
      rw [List.getD_eq_getElem b 0 hl]
      exact hbytes _ (List.getElem_mem hl)
    have h5 : b.getD 5 0 < 256 := by
      have hl : 5 < b.length := by omega
      rw [List.getD_eq_getElem b 0 hl]
      exact hbytes _ (List.getElem_mem hl)
    rw [sysIDFromRawBytes, if_pos h]
    simp only [byteAt]
    rw [Nat.mod_eq_of_lt h4, Nat.mod_eq_of_lt h5]
  · intro h
    rw [sysIDFromRawBytes, if_neg h]

/-- C6 witness: the roundtrip at the spec's good stub
`4C 8B D1 B8 55 00 00 00 0F 05` (SysID `0x0055`) and at a hooked window. -/
theorem sysIDFromRawBytes_roundtrip_witness :
    sysIDFromRawBytes [76, 139, 209, 184, 85, 0, 0, 0, 15, 5] = .ok 85 ∧
    sysIDFromRawBytes [233, 0, 0, 0, 0, 144, 144, 144, 144, 144]
      = .error (.mayBeHooked [233, 0, 0, 0, 0, 144, 144, 144, 144, 144]) := by
  constructor
  · exact ((sysIDFromRawBytes_roundtrip [76, 139, 209, 184, 85, 0, 0, 0, 15, 5]
      (by decide) (by decide)).1 (by decide)).trans rfl
  · exact (sysIDFromRawBytes_roundtrip [233, 0, 0, 0, 0, 144, 144, 144, 144, 144]
      (by decide) (by decide)).2 (by decide)

/-- C7: in Auto mode, when the name-based `getSysID` fails with
`MayBeHookedError`, the resolver reopens from disk: a failed open's error is
returned as-is with no second retry; a successful open is followed by exactly
one retry of `getSysID` on the reopened image, whose result is final; and any
first-attempt error other than the hooked signal is returned unchanged. -/
theorem GetSysID_auto_mode_recovery (bp : BananaPhone) (env : Env)
    (funcname : String) (hauto : bp.isAuto = true)
    (hhg : bp.isHalosGate = false) :
    (∀ bs p e2, bp.getSysID funcname 0 false = .err (.mayBeHooked bs) →
      env.peOpen ntdllDiskPath = (p, some e2) →
      bp.GetSysID env funcname = .err e2) ∧
    (∀ bs p, bp.getSysID funcname 0 false = .err (.mayBeHooked bs) →
      env.peOpen ntdllDiskPath = (p, none) →
      bp.GetSysID env funcname
        = BananaPhone.getSysID { bp with banana := p } funcname 0 false) ∧
    (∀ e, bp.getSysID funcname 0 false = .err e →
      errorsAsMayBeHooked e = false →
      bp.GetSysID env funcname = .err e) := by
  refine ⟨?_, ?_, ?_⟩
  · intro bs p e2 h1 h2
    rw [BananaPhone.GetSysID]
    simp [h1, hauto, h2,
      show errorsAsMayBeHooked (.mayBeHooked bs) = true from rfl]
  · intro bs p h1 h2
    rw [BananaPhone.GetSysID]
    simp [h1, hauto, h2,
      show errorsAsMayBeHooked (.mayBeHooked bs) = true from rfl]
  · intro e h1 h2
    rw [BananaPhone.GetSysID]
    simp [h1, hauto, hhg, h2]

/-- C7 witness: on the hooked `c7` image with a failing disk open, the Auto
resolver surfaces the open error as-is. -/
theorem GetSysID_auto_mode_recovery_witness :
    c7Phone.GetSysID c7Env "NtX" = .err (.message "open failed") :=
  (GetSysID_auto_mode_recovery c7Phone c7Env "NtX" rfl rfl).1
    (List.replicate 10 144) none (.message "open failed") (by decide) rfl

/-- C8: export-name matching is asymmetric: for a list of exports all of
whose names agree with the query only up to case (and differ from it
exactly), the function-pointer lookup `GetFuncPtr` succeeds on the first
export (case-insensitive comparison), while the SysID lookup `getSysID` with
`useOrd = false` matches none of them and fails (case-sensitive
comparison). -/
theorem export_name_matching_asymmetry (bp : BananaPhone) (banana : PEFile)
    (n : String) (ex : ExportEntry) (rest : List ExportEntry)
    (hban : bp.banana = some banana)
    (hex : banana.exportsResult = .ok (ex :: rest))
    (hall : ∀ x ∈ ex :: rest, goToLower x.name = goToLower n ∧ x.name ≠ n) :
    bp.GetFuncPtr n = .ok ((bp.memloc + ex.virtualAddress) % 2 ^ 64) ∧
    bp.getSysID n 0 false = .err (.message "Could not find syscall ID") := by
  constructor
  · have h := (hall ex (List.mem_cons_self ex rest)).1
    rw [BananaPhone.GetFuncPtr, hban]
    simp only [hex]
    rw [funcPtrLoop, h, if_pos rfl]
  · have hall2 : ∀ x ∈ ex :: rest, exportMatch false 0 n x = false := by
      intro x hx
      have hne := (hall x hx).2
      simp only [exportMatch, Bool.false_and, Bool.false_or,
        beq_eq_false_iff_ne, ne_eq]
      exact hne
    rw [BananaPhone.getSysID, hban]
    simp only [hex]
    exact getSysIDLoop_no_match banana n (ex :: rest) hall2

/-- C8 witness: the asymmetry at export `NtReadFile` queried as
`ntreadfile`. -/
theorem export_name_matching_asymmetry_witness :
    c8Phone.GetFuncPtr "ntreadfile" = .ok ((4096 + 77) % 2 ^ 64) ∧
    c8Phone.getSysID "ntreadfile" 0 false
      = .err (.message "Could not find syscall ID") :=
  export_name_matching_asymmetry c8Phone c8Banana "ntreadfile"
    ⟨"NtReadFile", 1, 77⟩ [] rfl rfl (by decide)

/-- C9: provided the loader reports non-zero base addresses, a resolver
constructed in a memory-backed mode (Memory, Auto or HalosGate) records a
non-zero `memloc`, a Disk-mode resolver records `memloc = 0`, and
`GetFuncPtr` on a matching export returns `memloc + RVA` (mod `2^64`) — the
RVA alone when `memloc = 0`. -/
theorem memloc_source_invariant (env : Env) (t : Int)
    (name diskpath funcname : String) (loads : List (String × LoadInfo))
    (bp : BananaPhone) (e : Option GoError)
    (hloads : env.inMemLoads = .ok loads)
    (hnz : ∀ entry ∈ loads, entry.2.baseAddr ≠ 0) :
    ((t = MemoryBananaPhoneMode ∨ t = AutoBananaPhoneMode ∨
        t = HalosGateBananaPhoneMode) →
      NewBananaPhoneNamed env t name diskpath = (some bp, e) →
      bp.memloc ≠ 0) ∧
    (NewBananaPhoneNamed env DiskBananaPhoneMode name diskpath
        = (some bp, e) →
      bp.memloc = 0) ∧
    (∀ banana ex rest, bp.banana = some banana →
      banana.exportsResult = .ok (ex :: rest) →
      goToLower funcname = goToLower ex.name →
      bp.GetFuncPtr funcname
        = .ok ((bp.memloc + ex.virtualAddress) % 2 ^ 64)) := by
  refine ⟨?_, ?_, ?_⟩
  · intro ht hcons
    have hcond : t = HalosGateBananaPhoneMode ∨ t = AutoBananaPhoneMode ∨
        t = MemoryBananaPhoneMode := by tauto
    unfold NewBananaPhoneNamed at hcons
    rw [if_pos hcond, hloads] at hcons
    simp only [] at hcons
    cases hfind : loads.find? (loadMatch name diskpath) with
    | none =>
      rw [hfind] at hcons
      simp only [] at hcons
      simp at hcons
    | some entry =>
      rw [hfind] at hcons
      simp only [] at hcons
      injection hcons with h1 h2
      injection h1 with h1
      rw [← h1]
      exact hnz entry (List.mem_of_find?_eq_some hfind)
  · intro hcons
    unfold NewBananaPhoneNamed at hcons
    rw [if_neg (by decide), if_pos (by decide)] at hcons
    injection hcons with h1 h2
    injection h1 with h1
    rw [← h1]
  · intro banana ex rest hban hexp hlow
    rw [BananaPhone.GetFuncPtr, hban]
    simp only [hexp]
    rw [funcPtrLoop, if_pos hlow]

/-- C9 witness: memory-mode construction over `c9Env` yields `c9Phone` with
the non-zero loader base recorded, and its `GetFuncPtr` returns
`memloc + RVA`. -/
theorem memloc_source_invariant_witness :
    c9Phone.memloc ≠ 0 ∧
    c9Phone.GetFuncPtr "ntcreatefile"
      = .ok ((c9Phone.memloc + 77) % 2 ^ 64) := by
  have h := memloc_source_invariant c9Env MemoryBananaPhoneMode "ntdll.dll"
    "C:\\Windows\\system32\\ntdll.dll" "ntcreatefile" c9Loads c9Phone none rfl
    (by decide)
  exact ⟨h.1 (Or.inl rfl) rfl,
    h.2.2 c9Banana ⟨"NtCreateFile", 2, 77⟩ [] rfl rfl (by decide)⟩

/-- C10: for every `PhoneMode` value other than the four defined constants,
`NewBananaPhoneNamed` skips the mode switch entirely and returns a non-nil
`BananaPhone` whose parsed image is nil, with a nil error. -/
theorem NewBananaPhoneNamed_unknown_mode (env : Env) (t : Int)
    (name diskpath : String)
    (h0 : t ≠ MemoryBananaPhoneMode) (h1 : t ≠ DiskBananaPhoneMode)
    (h2 : t ≠ AutoBananaPhoneMode) (h3 : t ≠ HalosGateBananaPhoneMode) :
    NewBananaPhoneNamed env t name diskpath
      = (some { banana := none, isAuto := false, isHalosGate := false,
                memloc := 0 }, none) := by
  have hn1 : ¬(t = HalosGateBananaPhoneMode ∨ t = AutoBananaPhoneMode ∨
      t = MemoryBananaPhoneMode) := by tauto
  unfold NewBananaPhoneNamed
  rw [if_neg hn1, if_neg h1]

/-- C10 witness: mode value 7 yields a non-nil resolver with nil image and
nil error. -/
theorem NewBananaPhoneNamed_unknown_mode_witness :
    NewBananaPhoneNamed c10Env 7 "ntdll.dll" "C:\\Windows\\system32\\ntdll.dll"
      = (some { banana := none, isAuto := false, isHalosGate := false,
                memloc := 0 }, none) :=
  NewBananaPhoneNamed_unknown_mode c10Env 7 "ntdll.dll"
    "C:\\Windows\\system32\\ntdll.dll" (by decide) (by decide) (by decide)
    (by decide)
